import Mathlib

/-
Verification development for the adaptive geohash SQL nearby-search
(src/adaptive_geohash_sql.py).

The geohash codec (`geohash.encode_uint64` / `geohash.expand_uint64`) and the
SQL backend (`db_conn.execute` for row counts and row fetches) are external
collaborators of the program; they are modelled as oracle fields of an `Env`
structure, and all theorems quantify over every behaviour of these oracles.
Floating-point arithmetic of the source is modelled over the real numbers,
and Python ints over ℤ/ℕ.
-/

namespace AdaptiveGeohash

/-! ## Distance calculator (src lines 5-16) -/

/-- Source line 5: Earth radius constant, in km. -/
noncomputable def EQUATORIAL_R : ℝ := 6367.445

/-- Python `math.radians`: degrees to radians. -/
noncomputable def radians (x : ℝ) : ℝ := x * (Real.pi / 180)

/-- Python `math.atan2(y, x)`, the two-argument arctangent. -/
noncomputable def atan2 (y x : ℝ) : ℝ :=
if 0 < x then Real.arctan (y / x)
else if x < 0 ∧ 0 ≤ y then Real.arctan (y / x) + Real.pi
else if x < 0 ∧ y < 0 then Real.arctan (y / x) - Real.pi
else if x = 0 ∧ 0 < y then Real.pi / 2
else if x = 0 ∧ y < 0 then -(Real.pi / 2)
else 0

/-- The intermediate value `a` of `distance` (source line 14): the haversine
central-angle operand built from the coordinate differences. -/
noncomputable def haversine_term (lat1 long1 lat2 long2 : ℝ) : ℝ :=
Real.sin (radians (lat1 - lat2) / 2) * Real.sin (radians (lat1 - lat2) / 2) +
  Real.cos (radians lat1) * Real.cos (radians lat2) *
    Real.sin (radians (long1 - long2) / 2) * Real.sin (radians (long1 - long2) / 2)

/-- Source lines 8-16: great-circle distance in km between two coordinate
pairs, with the defensive shortcut returning 0 for bit-identical points. -/
noncomputable def distance (lat1 long1 lat2 long2 : ℝ) : ℝ :=
if lat1 = lat2 ∧ long1 = long2 then 0
else
  EQUATORIAL_R *
    (2 * atan2 (Real.sqrt (haversine_term lat1 long1 lat2 long2))
      (Real.sqrt (1 - haversine_term lat1 long1 lat2 long2))) * 1

/-! ## Input validation (src lines 88-89)

Source line 88 reads
`if not (isinstance(latitude, (int, float)) or not isinstance(longitude, (int, float))
or not isinstance(lower_cut, int) or not isinstance(upper_cut, int)): raise InvalidParamException()`.
The four isinstance outcomes are modelled as booleans; the function below is
the exact guard of the `if`, i.e. it returns `true` iff the call raises
`InvalidParamException`. -/

/-- Whether the line-88 guard raises `InvalidParamException`, as a function of
the four `isinstance` outcomes (latitude numeric, longitude numeric,
lower_cut integer, upper_cut integer). -/
def raisesInvalidParam (lat_is_num lon_is_num lower_is_int upper_is_int : Bool) : Bool :=
!(lat_is_num || !lon_is_num || !lower_is_int || !upper_is_int)

/-! ## Predicate builder (src lines 21-49) -/

/-- One bound range produced by `geohash.expand_uint64`: an optional lower
and an optional upper unsigned-64-bit bound. -/
abbrev Rng : Type := Option ℕ × Option ℕ

/-- Python truthiness of a bound slot: `None` and `0` are falsy, any other
int is truthy.  Source lines 40-44 test `if bound_range[0]`, not
`if bound_range[0] is not None`. -/
def truthy : Option ℕ → Bool
| none => false
| some n => decide (n ≠ 0)

/-- The clause appended for one bound range (source lines 40-45), `none` when
the loop body appends nothing. -/
def subClause (col : String) (r : Rng) : Option String :=
if truthy r.1 && truthy r.2 then
  some ("(" ++ col ++ ">=" ++ toString (r.1.getD 0) ++ " AND " ++ col ++ "<" ++ toString (r.2.getD 0) ++ ")")
else if truthy r.1 then
  some ("(" ++ col ++ ">=" ++ toString (r.1.getD 0) ++ ")")
else if truthy r.2 then
  some ("(" ++ col ++ "<" ++ toString (r.2.getD 0) ++ ")")
else none

/-- The `sub_clauses` list accumulated by the loop of source lines 38-45. -/
def buildSubClauses (ranges : List Rng) (col : String) : List String :=
ranges.filterMap (subClause col)

/-- Source lines 46-49 applied to an explicit list of bound ranges: join the
sub-clauses with " OR ", or return the empty string when there are none. -/
def whereClauseOfRanges (ranges : List Rng) (col : String) : String :=
let sub_clauses := buildSubClauses ranges col
if sub_clauses.length = 0 then "" else "(" ++ String.intercalate " OR " sub_clauses ++ ")"

/-! ## External collaborators -/

/-- A SQLAlchemy table column object; only its `.name` is observable here. -/
structure Column where
  name : String
deriving DecidableEq

/-- The external collaborators of one invocation: the geohash codec, the
row-count query backend (`count i w` is the backend's answer to the i-th
count query of the invocation, issued with WHERE clause `w`), the row-fetch
backend, and column-indexed row access `row[col]`. -/
structure Env (Row : Type) where
  expand_uint64 : ℕ → ℤ → List Rng
  encode_uint64 : ℝ → ℝ → ℕ
  count : ℕ → String → ℕ
  fetch : List Column → String → List Row
  rowVal : Row → Column → ℝ

/-- Source lines 21-49, `get_geohash_where_clause`: expand the geohash via
the codec collaborator and build the WHERE clause from the bound ranges. -/
def get_geohash_where_clause {Row : Type} (env : Env Row) (coord_geoint : ℕ)
    (precision : ℤ) (geoint_col_name : String) : String :=
whereClauseOfRanges (env.expand_uint64 coord_geoint precision) geoint_col_name

/-! ## Adaptive precision controller (src lines 94-171) -/

/-- Source line 99: limit on repeated database count queries. -/
def MAX_DB_HITS : ℕ := 20

/-- The mutable local variables of the search loop (source lines 100-106,
plus the loop-local `where_clause` of line 108, which survives the loop and
feeds the fetch of line 174). -/
structure SearchState where
  precision : ℤ
  previous_precision : ℤ
  previous_result_size : ℕ
  previous_where_clause : String
  stop : Bool
  fall_back : Bool
  loop_count : ℕ
  where_clause : String

/-- Source lines 100-106: starting precision 50, nothing recorded yet. -/
def initState : SearchState :=
{ precision := 50, previous_precision := 50, previous_result_size := 0,
  previous_where_clause := "", stop := false, fall_back := false,
  loop_count := 0, where_clause := "" }

/-- Source lines 135-170: adaptively decrease the precision based on the
percent of rows found.  `percent_returned` is the exact rational value of the
float division of line 135. -/
def updatePrecision (result_size max_result_cap : ℕ) (precision : ℤ) : ℤ :=
let percent_returned : ℚ := (result_size : ℚ) / (max_result_cap : ℚ)
if percent_returned = 0 ∧ 1 / (max_result_cap : ℚ) < 0.05 then
  (if precision ≤ 4 then precision - 1 else max 4 (precision - 8))
else if percent_returned = 0 ∧ 0.05 ≤ 1 / (max_result_cap : ℚ) then
  (if precision ≤ 4 then precision - 1 else max 4 (precision - 7))
else if percent_returned ≤ 0.05 then
  (if precision ≤ 4 then precision - 1 else max 4 (precision - 6))
else if percent_returned < 0.25 then
  (if precision ≤ 4 then precision - 1 else max 4 (precision - 4))
else if percent_returned < 0.5 then
  (if precision ≤ 3 then precision - 1 else max 3 (precision - 2))
else precision - 1

/-- The per-invocation constants captured by the loop body: the environment,
the encoded centre (line 98), the geohash column, the caller's extra WHERE
fragment, and the result cap of lines 94-97. -/
structure Ctx (Row : Type) where
  env : Env Row
  coord_geoint : ℕ
  geoint_col : Column
  custom_where_clause : String
  max_result_cap : ℕ

/-- The WHERE clause built at the top of an iteration (source line 108). -/
def rawClause {Row : Type} (c : Ctx Row) (s : SearchState) : String :=
get_geohash_where_clause c.env c.coord_geoint s.precision c.geoint_col.name

/-- The clause actually sent to the count query: source lines 114-115 append
the caller's custom fragment when it is non-empty. -/
def fullClause {Row : Type} (c : Ctx Row) (s : SearchState) : String :=
if 0 < c.custom_where_clause.length then rawClause c s ++ c.custom_where_clause
else rawClause c s

/-- The backend's answer to this iteration's count query (source lines
116-118); `s.loop_count` count queries were issued before this one. -/
def resultSize {Row : Type} (c : Ctx Row) (s : SearchState) : ℕ :=
c.env.count s.loop_count (fullClause c s)

/-- The guard of the while loop (source line 107): `not stop and not fall_back`. -/
def Active (s : SearchState) : Prop := s.stop = false ∧ s.fall_back = false

instance (s : SearchState) : Decidable (Active s) :=
inferInstanceAs (Decidable (s.stop = false ∧ s.fall_back = false))

/-- One iteration of the while loop, source lines 108-171. -/
def searchStep {Row : Type} (c : Ctx Row) (s : SearchState) : SearchState :=
if (rawClause c s).length = 0 then
  { s with stop := true, fall_back := true, where_clause := rawClause c s }
else
  let result_size := resultSize c s
  let loop_count := s.loop_count + 1
  let s1 :=
    if result_size < s.previous_result_size then
      { s with where_clause := s.previous_where_clause, stop := true,
               loop_count := loop_count }
    else
      { s with previous_result_size := result_size,
               previous_precision := s.precision,
               previous_where_clause := fullClause c s,
               where_clause := fullClause c s,
               loop_count := loop_count }
  let s2 := if c.max_result_cap ≤ result_size then { s1 with stop := true } else s1
  if result_size < c.max_result_cap ∧ MAX_DB_HITS ≤ loop_count then
    { s2 with stop := true, fall_back := true }
  else
    { s2 with precision := max 0 (updatePrecision result_size c.max_result_cap s2.precision) }

/-- The while loop of source line 107, with an explicit fuel parameter.  The
loop body runs only while `not stop and not fall_back`; the theorems below
show that fuel `MAX_DB_HITS + 1` always reaches the exit condition, so the
fuelled definition coincides with the source's unbounded while loop. -/
def searchLoop {Row : Type} (c : Ctx Row) : ℕ → SearchState → SearchState
| 0, s => s
| Nat.succ n, s =>
    if Active s then searchLoop c n (searchStep c s) else s

/-- Source lines 90-93: ensure the latitude and longitude columns are in the
selected columns, appending them when absent (the Python code mutates the
caller's list in place; the mutation is modelled by explicit state passing,
this function returning the final value of `select_cols`). -/
def updateSelectCols (select_cols : List Column) (lat_col lon_col : Column) : List Column :=
let select_cols := if lat_col ∉ select_cols then select_cols ++ [lat_col] else select_cols
if lon_col ∉ select_cols then select_cols ++ [lon_col] else select_cols

/-- The constants of one invocation (source lines 94-98): the result cap
`max(upper_cut, 20)` and the geohash-encoded centre. -/
def mkCtx {Row : Type} (env : Env Row) (latitude longitude : ℝ) (upper_cut : ℕ)
    (geoint_col : Column) (custom_where_clause : String) : Ctx Row :=
{ env := env, coord_geoint := env.encode_uint64 latitude longitude,
  geoint_col := geoint_col, custom_where_clause := custom_where_clause,
  max_result_cap := max upper_cut 20 }

/-- The state of the local variables when the while loop of line 107 exits. -/
def finalState {Row : Type} (env : Env Row) (latitude longitude : ℝ) (upper_cut : ℕ)
    (geoint_col : Column) (custom_where_clause : String) : SearchState :=
searchLoop (mkCtx env latitude longitude upper_cut geoint_col custom_where_clause)
  (MAX_DB_HITS + 1) initState

/-- The WHERE clause the invocation fetches rows with (line 174's
`where_clause`), i.e. the accepted predicate. -/
def acceptedClause {Row : Type} (env : Env Row) (latitude longitude : ℝ) (upper_cut : ℕ)
    (geoint_col : Column) (custom_where_clause : String) : String :=
(finalState env latitude longitude upper_cut geoint_col custom_where_clause).where_clause

/-! ## Result materializer (src lines 172-181) -/

/-- Source lines 174-181: fetch the rows matching the accepted clause, score
each by distance to the centre, stable-sort ascending by that distance, keep
the rows, and slice `[lower_cut:upper_cut]`. -/
noncomputable def materialize {Row : Type} (env : Env Row) (latitude longitude : ℝ)
    (lower_cut upper_cut : ℕ) (select_cols : List Column) (lat_col lon_col : Column)
    (where_clause : String) : List Row :=
let data := env.fetch select_cols where_clause
let sorted_list := data.map
  (fun row => (row, distance latitude longitude (env.rowVal row lat_col) (env.rowVal row lon_col)))
let sorted_list := sorted_list.mergeSort (fun a b => decide (a.2 ≤ b.2))
((sorted_list.map (fun i => i.1)).drop lower_cut).take (upper_cut - lower_cut)

/-- Source lines 51-183, `adaptive_geohash_nearby_search`, for invocations
that pass the line-88 parameter guard (that guard is modelled separately by
`raisesInvalidParam`, since its inputs are the dynamic types of the
arguments rather than their values).  Returns `none` for the FALLBACK
sentinel (Python `None`). -/
noncomputable def adaptive_geohash_nearby_search {Row : Type} (env : Env Row)
    (latitude longitude : ℝ) (lower_cut upper_cut : ℕ) (select_cols : List Column)
    (count_col lat_col lon_col geoint_col : Column) (custom_where_clause : String) :
    Option (List Row) :=
let select_cols := updateSelectCols select_cols lat_col lon_col
let final := finalState env latitude longitude upper_cut geoint_col custom_where_clause
if final.fall_back = false then
  some (materialize env latitude longitude lower_cut upper_cut select_cols
    lat_col lon_col final.where_clause)
else
  none

/-! ## Loop infrastructure lemmas -/

theorem searchLoop_of_not_active {Row : Type} (c : Ctx Row) (n : ℕ) (s : SearchState)
    (h : ¬ Active s) : searchLoop c n s = s := by
cases n with
| zero => rfl
| succ n => simp only [searchLoop]; rw [if_neg h]

theorem searchLoop_succ_of_active {Row : Type} (c : Ctx Row) (n : ℕ) (s : SearchState)
    (h : Active s) : searchLoop c (n + 1) s = searchLoop c n (searchStep c s) := by
simp only [searchLoop]; rw [if_pos h]

theorem searchLoop_add {Row : Type} (c : Ctx Row) (m n : ℕ) (s : SearchState) :
    searchLoop c (m + n) s = searchLoop c m (searchLoop c n s) := by
induction n generalizing s with
| zero => rfl
| succ n ih =>
    by_cases h : Active s
    · rw [show m + (n + 1) = (m + n) + 1 from rfl, searchLoop_succ_of_active c (m + n) s h,
        searchLoop_succ_of_active c n s h, ih]
    · rw [searchLoop_of_not_active c (m + (n + 1)) s h, searchLoop_of_not_active c (n + 1) s h,
        searchLoop_of_not_active c m s h]

theorem searchStep_empty {Row : Type} (c : Ctx Row) (s : SearchState)
    (h0 : (rawClause c s).length = 0) :
    searchStep c s = { s with stop := true, fall_back := true, where_clause := rawClause c s } := by
unfold searchStep; rw [if_pos h0]

theorem searchStep_stop_of_reg {Row : Type} (c : Ctx Row) (s : SearchState)
    (h0 : ¬ (rawClause c s).length = 0) (hreg : resultSize c s < s.previous_result_size) :
    (searchStep c s).stop = true := by
simp only [searchStep, if_neg h0, if_pos hreg]
split_ifs <;> rfl

theorem searchStep_reg {Row : Type} (c : Ctx Row) (s : SearchState)
    (h0 : ¬ (rawClause c s).length = 0)
    (hreg : resultSize c s < s.previous_result_size)
    (hcap : resultSize c s < c.max_result_cap) :
    searchStep c s =
      if MAX_DB_HITS ≤ s.loop_count + 1 then
        { s with where_clause := s.previous_where_clause, stop := true, fall_back := true,
                 loop_count := s.loop_count + 1 }
      else
        { s with where_clause := s.previous_where_clause, stop := true,
                 loop_count := s.loop_count + 1,
                 precision := max 0 (updatePrecision (resultSize c s) c.max_result_cap s.precision) } := by
simp only [searchStep, if_neg h0, if_pos hreg, if_neg (not_le.mpr hcap)]
by_cases h20 : MAX_DB_HITS ≤ s.loop_count + 1
· rw [if_pos (And.intro hcap h20), if_pos h20]
· rw [if_neg (fun hc => h20 hc.2), if_neg h20]

theorem searchStep_noreg_cap {Row : Type} (c : Ctx Row) (s : SearchState)
    (h0 : ¬ (rawClause c s).length = 0)
    (hreg : ¬ resultSize c s < s.previous_result_size)
    (hcap : c.max_result_cap ≤ resultSize c s) :
    searchStep c s =
      { s with previous_result_size := resultSize c s, previous_precision := s.precision,
               previous_where_clause := fullClause c s, where_clause := fullClause c s,
               loop_count := s.loop_count + 1, stop := true,
               precision := max 0 (updatePrecision (resultSize c s) c.max_result_cap s.precision) } := by
simp only [searchStep, if_neg h0, if_neg hreg, if_pos hcap,
  if_neg (fun hc : _ ∧ _ => absurd hcap (not_le.mpr hc.1))]

theorem searchStep_noreg_budget {Row : Type} (c : Ctx Row) (s : SearchState)
    (h0 : ¬ (rawClause c s).length = 0)
    (hreg : ¬ resultSize c s < s.previous_result_size)
    (hcap : resultSize c s < c.max_result_cap)
    (h20 : MAX_DB_HITS ≤ s.loop_count + 1) :
    searchStep c s =
      { s with previous_result_size := resultSize c s, previous_precision := s.precision,
               previous_where_clause := fullClause c s, where_clause := fullClause c s,
               loop_count := s.loop_count + 1, stop := true, fall_back := true } := by
simp only [searchStep, if_neg h0, if_neg hreg, if_neg (not_le.mpr hcap),
  if_pos (And.intro hcap h20)]

theorem searchStep_noreg_cont {Row : Type} (c : Ctx Row) (s : SearchState)
    (h0 : ¬ (rawClause c s).length = 0)
    (hreg : ¬ resultSize c s < s.previous_result_size)
    (hcap : resultSize c s < c.max_result_cap)
    (h20 : ¬ MAX_DB_HITS ≤ s.loop_count + 1) :
    searchStep c s =
      { s with previous_result_size := resultSize c s, previous_precision := s.precision,
               previous_where_clause := fullClause c s, where_clause := fullClause c s,
               loop_count := s.loop_count + 1,
               precision := max 0 (updatePrecision (resultSize c s) c.max_result_cap s.precision) } := by
simp only [searchStep, if_neg h0, if_neg hreg, if_neg (not_le.mpr hcap),
  if_neg (fun hc : _ ∧ _ => h20 hc.2)]

/-- An iteration whose successor state is still active must have taken the
path that records the new count and adjusts the precision: non-empty clause,
no regression, count below the cap, budget not yet reached. -/
theorem searchStep_active_elim {Row : Type} (c : Ctx Row) (s : SearchState)
    (ha' : Active (searchStep c s)) :
    ¬ (rawClause c s).length = 0 ∧ ¬ resultSize c s < s.previous_result_size ∧
      resultSize c s < c.max_result_cap ∧ ¬ MAX_DB_HITS ≤ s.loop_count + 1 := by
by_cases h0 : (rawClause c s).length = 0
· rw [searchStep_empty c s h0] at ha'; simp [Active] at ha'
by_cases hreg : resultSize c s < s.previous_result_size
· have hstop := searchStep_stop_of_reg c s h0 hreg
  rw [ha'.1] at hstop; simp at hstop
by_cases hcap : c.max_result_cap ≤ resultSize c s
· rw [searchStep_noreg_cap c s h0 hreg hcap] at ha'; simp [Active] at ha'
by_cases h20 : MAX_DB_HITS ≤ s.loop_count + 1
· rw [searchStep_noreg_budget c s h0 hreg (not_le.mp hcap) h20] at ha'; simp [Active] at ha'
exact ⟨h0, hreg, not_le.mp hcap, h20⟩

theorem searchStep_active_loop_count {Row : Type} (c : Ctx Row) (s : SearchState)
    (ha' : Active (searchStep c s)) :
    (searchStep c s).loop_count = s.loop_count + 1 := by
obtain ⟨h0, hreg, hcap, h20⟩ := searchStep_active_elim c s ha'
rw [searchStep_noreg_cont c s h0 hreg hcap h20]

/-- Loop invariant: the number of count queries issued never exceeds the
query budget, and an active state has strictly fewer than the budget and a
recorded count strictly below the result cap. -/
def Inv {Row : Type} (c : Ctx Row) (s : SearchState) : Prop :=
s.loop_count ≤ MAX_DB_HITS ∧
  (Active s → s.loop_count < MAX_DB_HITS ∧ s.previous_result_size < c.max_result_cap)

theorem inv_initState {Row : Type} (c : Ctx Row) (hcap : 0 < c.max_result_cap) :
    Inv c initState :=
⟨by decide, fun _ => ⟨by decide, hcap⟩⟩

theorem inv_searchStep {Row : Type} (c : Ctx Row) (s : SearchState) (ha : Active s)
    (h : Inv c s) : Inv c (searchStep c s) := by
obtain ⟨hle, hact⟩ := h
obtain ⟨hlc, hprev⟩ := hact ha
by_cases h0 : (rawClause c s).length = 0
· rw [searchStep_empty c s h0]
  exact ⟨hle, fun ha' => by simp [Active] at ha'⟩
by_cases hreg : resultSize c s < s.previous_result_size
· rw [searchStep_reg c s h0 hreg (lt_trans hreg hprev)]
  by_cases h20 : MAX_DB_HITS ≤ s.loop_count + 1
  · rw [if_pos h20]
    exact ⟨by show s.loop_count + 1 ≤ MAX_DB_HITS; omega,
      fun ha' => by simp [Active] at ha'⟩
  · rw [if_neg h20]
    exact ⟨by show s.loop_count + 1 ≤ MAX_DB_HITS; omega,
      fun ha' => by simp [Active] at ha'⟩
by_cases hcap : c.max_result_cap ≤ resultSize c s
· rw [searchStep_noreg_cap c s h0 hreg hcap]
  exact ⟨by show s.loop_count + 1 ≤ MAX_DB_HITS; omega,
    fun ha' => by simp [Active] at ha'⟩
by_cases h20 : MAX_DB_HITS ≤ s.loop_count + 1
· rw [searchStep_noreg_budget c s h0 hreg (not_le.mp hcap) h20]
  exact ⟨by show s.loop_count + 1 ≤ MAX_DB_HITS; omega,
    fun ha' => by simp [Active] at ha'⟩
rw [searchStep_noreg_cont c s h0 hreg (not_le.mp hcap) h20]
exact ⟨by show s.loop_count + 1 ≤ MAX_DB_HITS; omega,
  fun _ => ⟨by show s.loop_count + 1 < MAX_DB_HITS; omega, not_le.mp hcap⟩⟩

theorem inv_searchLoop {Row : Type} (c : Ctx Row) (n : ℕ) (s : SearchState)
    (h : Inv c s) : Inv c (searchLoop c n s) := by
induction n generalizing s with
| zero => exact h
| succ n ih =>
    by_cases ha : Active s
    · rw [searchLoop_succ_of_active c n s ha]
      exact ih (searchStep c s) (inv_searchStep c s ha h)
    · rw [searchLoop_of_not_active c (n + 1) s ha]; exact h

/-- With enough fuel, the loop reaches its exit condition: the source's
while loop terminates within the query budget. -/
theorem searchLoop_stops {Row : Type} (c : Ctx Row) :
    ∀ (n : ℕ) (s : SearchState), Inv c s → MAX_DB_HITS < s.loop_count + n →
      ¬ Active (searchLoop c n s) := by
intro n
induction n with
| zero =>
    intro s hinv hn ha
    have ha' : Active s := ha
    have := (hinv.2 ha').1
    omega
| succ n ih =>
    intro s hinv hn
    by_cases ha : Active s
    · rw [searchLoop_succ_of_active c n s ha]
      by_cases ha' : Active (searchStep c s)
      · exact ih (searchStep c s) (inv_searchStep c s ha hinv)
          (by rw [searchStep_active_loop_count c s ha']; omega)
      · rw [searchLoop_of_not_active c n (searchStep c s) ha']; exact ha'
    · rw [searchLoop_of_not_active c (n + 1) s ha]; exact ha

/-- The state of the loop variables after `n` executed iterations of an
invocation's search loop. -/
def stateAt {Row : Type} (env : Env Row) (latitude longitude : ℝ) (upper_cut : ℕ)
    (geoint_col : Column) (custom_where_clause : String) (n : ℕ) : SearchState :=
searchLoop (mkCtx env latitude longitude upper_cut geoint_col custom_where_clause) n initState

/-- Stepping at the end: with one more unit of fuel, an active loop state is
advanced by one `searchStep`. -/
theorem searchLoop_succ_end {Row : Type} (c : Ctx Row) (n : ℕ) (s : SearchState)
    (ha : Active (searchLoop c n s)) :
    searchLoop c (n + 1) s = searchStep c (searchLoop c n s) := by
induction n generalizing s with
| zero =>
    have ha' : Active s := ha
    rw [searchLoop_succ_of_active c 0 s ha']
    rfl
| succ n ih =>
    by_cases has : Active s
    · rw [searchLoop_succ_of_active c (n + 1) s has]
      rw [searchLoop_succ_of_active c n s has] at ha ⊢
      exact ih (searchStep c s) ha
    · rw [searchLoop_of_not_active c (n + 1) s has] at ha
      exact absurd ha has

/-- A state still active after `n` iterations means the budget was not yet
reached, so `n` is at most `MAX_DB_HITS`. -/
theorem searchLoop_init_active_le {Row : Type} (c : Ctx Row)
    (hcap : 0 < c.max_result_cap) (n : ℕ)
    (ha : Active (searchLoop c n initState)) : n ≤ MAX_DB_HITS := by
by_contra hgt
push_neg at hgt
have hstop := searchLoop_stops c (MAX_DB_HITS + 1) initState (inv_initState c hcap)
  (by show MAX_DB_HITS < 0 + (MAX_DB_HITS + 1); omega)
rw [show n = (n - (MAX_DB_HITS + 1)) + (MAX_DB_HITS + 1) from by omega, searchLoop_add,
  searchLoop_of_not_active _ _ _ hstop] at ha
exact hstop ha

/-- When the step after `n` active iterations reaches the loop's exit
condition, the whole invocation's final state is exactly that step. -/
theorem finalState_eq_of_stopped_step {Row : Type} (env : Env Row)
    (latitude longitude : ℝ) (upper_cut : ℕ) (geoint_col : Column)
    (custom_where_clause : String) (n : ℕ)
    (ha : Active (stateAt env latitude longitude upper_cut geoint_col custom_where_clause n))
    (hstop : ¬ Active (searchStep
      (mkCtx env latitude longitude upper_cut geoint_col custom_where_clause)
      (stateAt env latitude longitude upper_cut geoint_col custom_where_clause n))) :
    finalState env latitude longitude upper_cut geoint_col custom_where_clause =
      searchStep (mkCtx env latitude longitude upper_cut geoint_col custom_where_clause)
        (stateAt env latitude longitude upper_cut geoint_col custom_where_clause n) := by
have hcap : 0 < (mkCtx env latitude longitude upper_cut geoint_col
    custom_where_clause).max_result_cap :=
  lt_of_lt_of_le (by norm_num) (le_max_right upper_cut 20)
have hnle : n ≤ MAX_DB_HITS := searchLoop_init_active_le _ hcap n ha
simp only [stateAt] at ha hstop ⊢
simp only [finalState]
rw [show MAX_DB_HITS + 1 = (MAX_DB_HITS - n) + (n + 1) from by omega, searchLoop_add,
  searchLoop_succ_end _ n initState ha, searchLoop_of_not_active _ _ _ hstop]

/-! ## The yield-ratio table in integer form -/

/-- The float comparisons of source lines 139-170, with the exact rational
value of `percent_returned`, are equivalent to integer comparisons between
the count and the cap; this restates the band table in that form. -/
theorem updatePrecision_bands (rs cap : ℕ) (p : ℤ) (hcap : 0 < cap) :
    updatePrecision rs cap p =
      if rs = 0 ∧ 20 < cap then
        (if p ≤ 4 then p - 1 else max 4 (p - 8))
      else if rs = 0 ∧ cap ≤ 20 then
        (if p ≤ 4 then p - 1 else max 4 (p - 7))
      else if 20 * rs ≤ cap then
        (if p ≤ 4 then p - 1 else max 4 (p - 6))
      else if 4 * rs < cap then
        (if p ≤ 4 then p - 1 else max 4 (p - 4))
      else if 2 * rs < cap then
        (if p ≤ 3 then p - 1 else max 3 (p - 2))
      else p - 1 := by
have hc : (0 : ℚ) < (cap : ℚ) := by exact_mod_cast hcap
have h1 : ((rs : ℚ) / (cap : ℚ) = 0) ↔ rs = 0 := by
  rw [div_eq_zero_iff]
  constructor
  · rintro (h | h)
    · exact_mod_cast h
    · exact absurd h (ne_of_gt hc)
  · intro h; left; exact_mod_cast h
have h2 : (1 / (cap : ℚ) < 0.05) ↔ 20 < cap := by
  rw [show (0.05 : ℚ) = 1 / 20 by norm_num,
    div_lt_div_iff₀ hc (by norm_num : (0 : ℚ) < 20), one_mul, one_mul]
  norm_cast
have h3 : ((0.05 : ℚ) ≤ 1 / (cap : ℚ)) ↔ cap ≤ 20 := by
  rw [show (0.05 : ℚ) = 1 / 20 by norm_num,
    div_le_div_iff₀ (by norm_num : (0 : ℚ) < 20) hc, one_mul, one_mul]
  norm_cast
have h4 : ((rs : ℚ) / (cap : ℚ) ≤ 0.05) ↔ 20 * rs ≤ cap := by
  rw [show (0.05 : ℚ) = 1 / 20 by norm_num,
    div_le_div_iff₀ hc (by norm_num : (0 : ℚ) < 20), one_mul, mul_comm]
  norm_cast
have h5 : ((rs : ℚ) / (cap : ℚ) < 0.25) ↔ 4 * rs < cap := by
  rw [show (0.25 : ℚ) = 1 / 4 by norm_num,
    div_lt_div_iff₀ hc (by norm_num : (0 : ℚ) < 4), one_mul, mul_comm]
  norm_cast
have h6 : ((rs : ℚ) / (cap : ℚ) < 0.5) ↔ 2 * rs < cap := by
  rw [show (0.5 : ℚ) = 1 / 2 by norm_num,
    div_lt_div_iff₀ hc (by norm_num : (0 : ℚ) < 2), one_mul, mul_comm]
  norm_cast
simp only [updatePrecision, h1, h2, h3, h4, h5, h6]

/-- C2: For every loop iteration that neither converges nor falls back, the
controller updates precision exactly by the yield-ratio table with
percentReturned = count / maxResultCap (stated in equivalent integer form:
percentReturned = 0 iff the count is 0; 1/maxResultCap < 0.05 iff
20 < maxResultCap; percentReturned ≤ 0.05 iff 20·count ≤ maxResultCap;
percentReturned < 0.25 iff 4·count < maxResultCap; percentReturned < 0.5 iff
2·count < maxResultCap): subtract 8/7/6/4 floored at 4, subtract 2 floored
at 3, or subtract 1; in the first four bands a precision already ≤ 4 (≤ 3
for the < 0.5 band) instead subtracts 1; afterwards precision is clamped to
a global floor of 0. -/
theorem C2_yield_ratio_table {Row : Type} (c : Ctx Row) (s : SearchState)
    (hcap : 0 < c.max_result_cap) (ha' : Active (searchStep c s)) :
    (searchStep c s).precision =
      max 0
        (if resultSize c s = 0 ∧ 20 < c.max_result_cap then
          (if s.precision ≤ 4 then s.precision - 1 else max 4 (s.precision - 8))
        else if resultSize c s = 0 ∧ c.max_result_cap ≤ 20 then
          (if s.precision ≤ 4 then s.precision - 1 else max 4 (s.precision - 7))
        else if 20 * resultSize c s ≤ c.max_result_cap then
          (if s.precision ≤ 4 then s.precision - 1 else max 4 (s.precision - 6))
        else if 4 * resultSize c s < c.max_result_cap then
          (if s.precision ≤ 4 then s.precision - 1 else max 4 (s.precision - 4))
        else if 2 * resultSize c s < c.max_result_cap then
          (if s.precision ≤ 3 then s.precision - 1 else max 3 (s.precision - 2))
        else s.precision - 1) := by
obtain ⟨h0, hreg, hcapr, h20⟩ := searchStep_active_elim c s ha'
rw [searchStep_noreg_cont c s h0 hreg hcapr h20]
show max 0 (updatePrecision (resultSize c s) c.max_result_cap s.precision) = _
rw [updatePrecision_bands (resultSize c s) c.max_result_cap s.precision hcap]

/-- Witness for C2 at a concrete environment: a first iteration with count 0
and cap 20 leaves the step active and moves precision from 50 to 43
(subtract 7, floors not hit). -/
def envC2 : Env Unit :=
{ expand_uint64 := fun _ _ => [(some 1, some 2)],
  encode_uint64 := fun _ _ => 0,
  count := fun _ _ => 0,
  fetch := fun _ _ => [],
  rowVal := fun _ _ => 0 }

theorem C2_yield_ratio_table_witness :
    0 < (mkCtx envC2 0 0 0 ⟨"g"⟩ "").max_result_cap ∧
      Active (searchStep (mkCtx envC2 0 0 0 ⟨"g"⟩ "") initState) ∧
      (searchStep (mkCtx envC2 0 0 0 ⟨"g"⟩ "") initState).precision = 43 := by
refine ⟨by decide, by decide, ?_⟩
rw [C2_yield_ratio_table (mkCtx envC2 0 0 0 ⟨"g"⟩ "") initState (by decide) (by decide)]
decide

/-- C3: For every invocation and every behaviour of the collaborators, the
search loop terminates (running it with any fuel beyond MAX_DB_HITS + 1
changes nothing), and its loop count — which counts exactly the count
queries issued — never exceeds the query budget MAX_DB_HITS = 20. -/
theorem C3_budget_and_termination {Row : Type} (env : Env Row)
    (latitude longitude : ℝ) (upper_cut : ℕ) (geoint_col : Column)
    (custom_where_clause : String) (n : ℕ) :
    (searchLoop (mkCtx env latitude longitude upper_cut geoint_col custom_where_clause)
        n initState).loop_count ≤ MAX_DB_HITS ∧
      searchLoop (mkCtx env latitude longitude upper_cut geoint_col custom_where_clause)
          (MAX_DB_HITS + 1 + n) initState =
        finalState env latitude longitude upper_cut geoint_col custom_where_clause := by
have hcap : 0 < (mkCtx env latitude longitude upper_cut geoint_col
    custom_where_clause).max_result_cap :=
  lt_of_lt_of_le (by norm_num) (le_max_right upper_cut 20)
constructor
· exact (inv_searchLoop _ n initState (inv_initState _ hcap)).1
· have hstop : ¬ Active (searchLoop (mkCtx env latitude longitude upper_cut geoint_col
      custom_where_clause) (MAX_DB_HITS + 1) initState) :=
    searchLoop_stops _ (MAX_DB_HITS + 1) initState (inv_initState _ hcap)
      (by show MAX_DB_HITS < 0 + (MAX_DB_HITS + 1); omega)
  rw [Nat.add_comm (MAX_DB_HITS + 1) n, searchLoop_add,
    searchLoop_of_not_active _ n _ hstop]
  rfl

/-- C4: If the geohash expansion yields an empty range sequence on the first
loop iteration (precision 50), the result is the FALLBACK sentinel `none`,
for every behaviour of the count and fetch collaborators (so neither is ever
consulted), and the final loop count is 0: no count query was issued. -/
theorem C4_empty_expansion_fallback {Row : Type} (env : Env Row)
    (latitude longitude : ℝ) (lower_cut upper_cut : ℕ) (select_cols : List Column)
    (count_col lat_col lon_col geoint_col : Column) (custom_where_clause : String)
    (cnt : ℕ → String → ℕ) (ftch : List Column → String → List Row)
    (h : env.expand_uint64 (env.encode_uint64 latitude longitude) 50 = []) :
    adaptive_geohash_nearby_search { env with count := cnt, fetch := ftch }
        latitude longitude lower_cut upper_cut select_cols count_col lat_col lon_col
        geoint_col custom_where_clause = none ∧
      (finalState { env with count := cnt, fetch := ftch } latitude longitude upper_cut
          geoint_col custom_where_clause).loop_count = 0 := by
have hraw : rawClause (mkCtx { env with count := cnt, fetch := ftch } latitude longitude
    upper_cut geoint_col custom_where_clause) initState = "" := by
  simp [rawClause, get_geohash_where_clause, mkCtx, initState, whereClauseOfRanges,
    buildSubClauses, h]
have hstep : searchStep (mkCtx { env with count := cnt, fetch := ftch } latitude longitude
    upper_cut geoint_col custom_where_clause) initState =
    { initState with stop := true, fall_back := true, where_clause := "" } := by
  rw [searchStep_empty _ _ (by rw [hraw]; rfl), hraw]
have hfin : finalState { env with count := cnt, fetch := ftch } latitude longitude upper_cut
    geoint_col custom_where_clause =
    { initState with stop := true, fall_back := true, where_clause := "" } := by
  simp only [finalState]
  rw [searchLoop_succ_of_active _ MAX_DB_HITS initState (by decide), hstep,
    searchLoop_of_not_active _ MAX_DB_HITS _ (by simp [Active])]
refine ⟨?_, by rw [hfin]; rfl⟩
simp only [adaptive_geohash_nearby_search, hfin]
rfl

/-- Witness environment for C4: the expansion collaborator returns no bound
ranges at every precision. -/
def envC4 : Env Unit :=
{ expand_uint64 := fun _ _ => [],
  encode_uint64 := fun _ _ => 7,
  count := fun _ _ => 100,
  fetch := fun _ _ => [],
  rowVal := fun _ _ => 0 }

theorem C4_empty_expansion_fallback_witness :
    envC4.expand_uint64 (envC4.encode_uint64 1 2) 50 = [] ∧
      adaptive_geohash_nearby_search { envC4 with
          count := (fun _ _ => 3),
          fetch := (fun _ _ => []) } 1 2 0 10 [] ⟨"id"⟩ ⟨"lat"⟩ ⟨"lon"⟩ ⟨"g"⟩ "" = none ∧
      (finalState { envC4 with count := (fun _ _ => 3), fetch := (fun _ _ => []) } 1 2 10
          ⟨"g"⟩ "").loop_count = 0 :=
⟨rfl,
  C4_empty_expansion_fallback envC4 1 2 0 10 [] ⟨"id"⟩ ⟨"lat"⟩ ⟨"lon"⟩ ⟨"g"⟩ ""
    (fun _ _ => 3) (fun _ _ => []) rfl⟩

/-! ## C1: regression check -/

/-- Counterexample environment for C1: the count collaborator answers 1 to
the first nineteen count queries and 0 afterwards, so the twentieth query
regresses exactly when the query budget is exhausted. -/
def envC1 : Env Unit :=
{ expand_uint64 := fun _ _ => [(some 1, some 2)],
  encode_uint64 := fun _ _ => 0,
  count := fun i _ => if i < 19 then 1 else 0,
  fetch := fun _ _ => [],
  rowVal := fun _ _ => 0 }

/-- C1 as stated is false: in this invocation the twentieth count query
returns 0, strictly less than the recorded previous count 1 (a regression in
a still-active loop), yet the invocation terminates as FALLBACK and returns
the sentinel `none` — no rows are fetched with the previous predicate. -/
theorem C1_counterexample :
    resultSize (mkCtx envC1 0 0 0 ⟨"g"⟩ "") (stateAt envC1 0 0 0 ⟨"g"⟩ "" 19) <
        (stateAt envC1 0 0 0 ⟨"g"⟩ "" 19).previous_result_size ∧
      Active (stateAt envC1 0 0 0 ⟨"g"⟩ "" 19) ∧
      adaptive_geohash_nearby_search envC1 0 0 0 0 [] ⟨"id"⟩ ⟨"lat"⟩ ⟨"lon"⟩ ⟨"g"⟩ "" =
        none := by
refine ⟨by decide, by decide, ?_⟩
rfl

/-- C1 (amended): whenever a count query of a still-active iteration returns
a count strictly less than the previously recorded count, the controller
reverts the working predicate to the previously recorded one and stops the
loop at once (the final state is this very step, so no further count query
is issued).  If this regressing query was not the one exhausting the query
budget, the invocation terminates as CONVERGED and the returned rows are
fetched with the previous predicate; if it was the budget-exhausting query,
the invocation instead terminates as FALLBACK and returns `none`. -/
theorem C1_regression_reverts {Row : Type} (env : Env Row) (latitude longitude : ℝ)
    (lower_cut upper_cut : ℕ) (select_cols : List Column)
    (count_col lat_col lon_col geoint_col : Column) (custom_where_clause : String) (n : ℕ)
    (ha : Active (stateAt env latitude longitude upper_cut geoint_col custom_where_clause n))
    (h0 : ¬ (rawClause (mkCtx env latitude longitude upper_cut geoint_col custom_where_clause)
      (stateAt env latitude longitude upper_cut geoint_col custom_where_clause n)).length = 0)
    (hreg : resultSize (mkCtx env latitude longitude upper_cut geoint_col custom_where_clause)
        (stateAt env latitude longitude upper_cut geoint_col custom_where_clause n) <
      (stateAt env latitude longitude upper_cut geoint_col
        custom_where_clause n).previous_result_size) :
    (searchStep (mkCtx env latitude longitude upper_cut geoint_col custom_where_clause)
        (stateAt env latitude longitude upper_cut geoint_col
          custom_where_clause n)).where_clause =
      (stateAt env latitude longitude upper_cut geoint_col
        custom_where_clause n).previous_where_clause ∧
    (searchStep (mkCtx env latitude longitude upper_cut geoint_col custom_where_clause)
      (stateAt env latitude longitude upper_cut geoint_col custom_where_clause n)).stop = true ∧
    finalState env latitude longitude upper_cut geoint_col custom_where_clause =
      searchStep (mkCtx env latitude longitude upper_cut geoint_col custom_where_clause)
        (stateAt env latitude longitude upper_cut geoint_col custom_where_clause n) ∧
    (¬ MAX_DB_HITS ≤ (stateAt env latitude longitude upper_cut geoint_col
        custom_where_clause n).loop_count + 1 →
      (searchStep (mkCtx env latitude longitude upper_cut geoint_col custom_where_clause)
        (stateAt env latitude longitude upper_cut geoint_col
          custom_where_clause n)).fall_back = false ∧
      adaptive_geohash_nearby_search env latitude longitude lower_cut upper_cut select_cols
          count_col lat_col lon_col geoint_col custom_where_clause =
        some (materialize env latitude longitude lower_cut upper_cut
          (updateSelectCols select_cols lat_col lon_col) lat_col lon_col
          (stateAt env latitude longitude upper_cut geoint_col
            custom_where_clause n).previous_where_clause)) ∧
    (MAX_DB_HITS ≤ (stateAt env latitude longitude upper_cut geoint_col
        custom_where_clause n).loop_count + 1 →
      (searchStep (mkCtx env latitude longitude upper_cut geoint_col custom_where_clause)
        (stateAt env latitude longitude upper_cut geoint_col
          custom_where_clause n)).fall_back = true ∧
      adaptive_geohash_nearby_search env latitude longitude lower_cut upper_cut select_cols
        count_col lat_col lon_col geoint_col custom_where_clause = none) := by
have hcap : 0 < (mkCtx env latitude longitude upper_cut geoint_col
    custom_where_clause).max_result_cap :=
  lt_of_lt_of_le (by norm_num) (le_max_right upper_cut 20)
have hinv : Inv (mkCtx env latitude longitude upper_cut geoint_col custom_where_clause)
    (stateAt env latitude longitude upper_cut geoint_col custom_where_clause n) :=
  inv_searchLoop _ n initState (inv_initState _ hcap)
obtain ⟨hlc, hprev⟩ := hinv.2 ha
have hcapr := lt_trans hreg hprev
have hstep := searchStep_reg (mkCtx env latitude longitude upper_cut geoint_col
    custom_where_clause)
  (stateAt env latitude longitude upper_cut geoint_col custom_where_clause n) h0 hreg hcapr
have hstop := searchStep_stop_of_reg (mkCtx env latitude longitude upper_cut geoint_col
    custom_where_clause)
  (stateAt env latitude longitude upper_cut geoint_col custom_where_clause n) h0 hreg
have hnotact : ¬ Active (searchStep (mkCtx env latitude longitude upper_cut geoint_col
    custom_where_clause)
    (stateAt env latitude longitude upper_cut geoint_col custom_where_clause n)) := by
  intro hA; simp [Active, hstop] at hA
have hfin := finalState_eq_of_stopped_step env latitude longitude upper_cut geoint_col
  custom_where_clause n ha hnotact
have hwc : (searchStep (mkCtx env latitude longitude upper_cut geoint_col custom_where_clause)
    (stateAt env latitude longitude upper_cut geoint_col
      custom_where_clause n)).where_clause =
    (stateAt env latitude longitude upper_cut geoint_col
      custom_where_clause n).previous_where_clause := by
  rw [hstep]; split_ifs <;> rfl
refine ⟨hwc, hstop, hfin, fun h20 => ?_, fun h20 => ?_⟩
· have hfb : (searchStep (mkCtx env latitude longitude upper_cut geoint_col
      custom_where_clause)
      (stateAt env latitude longitude upper_cut geoint_col
        custom_where_clause n)).fall_back = false := by
    rw [hstep, if_neg h20]; exact ha.2
  refine ⟨hfb, ?_⟩
  simp only [adaptive_geohash_nearby_search]
  rw [hfin, hfb, hwc]
  simp
· have hfb : (searchStep (mkCtx env latitude longitude upper_cut geoint_col
      custom_where_clause)
      (stateAt env latitude longitude upper_cut geoint_col
        custom_where_clause n)).fall_back = true := by
    rw [hstep, if_pos h20]
  refine ⟨hfb, ?_⟩
  simp only [adaptive_geohash_nearby_search]
  rw [hfin, hfb]
  simp

/-- Witness environment for the amended C1: count 5 on the first query, then
3 on the second, a regression with plenty of budget left. -/
def envC1w : Env Unit :=
{ expand_uint64 := fun _ _ => [(some 1, some 2)],
  encode_uint64 := fun _ _ => 0,
  count := fun i _ => if i = 0 then 5 else 3,
  fetch := fun _ _ => [],
  rowVal := fun _ _ => 0 }

theorem C1_regression_reverts_witness :
    (searchStep (mkCtx envC1w 0 0 0 ⟨"g"⟩ "") (stateAt envC1w 0 0 0 ⟨"g"⟩ "" 1)).where_clause =
      (stateAt envC1w 0 0 0 ⟨"g"⟩ "" 1).previous_where_clause ∧
    (searchStep (mkCtx envC1w 0 0 0 ⟨"g"⟩ "") (stateAt envC1w 0 0 0 ⟨"g"⟩ "" 1)).stop = true ∧
    finalState envC1w 0 0 0 ⟨"g"⟩ "" =
      searchStep (mkCtx envC1w 0 0 0 ⟨"g"⟩ "") (stateAt envC1w 0 0 0 ⟨"g"⟩ "" 1) ∧
    (¬ MAX_DB_HITS ≤ (stateAt envC1w 0 0 0 ⟨"g"⟩ "" 1).loop_count + 1 →
      (searchStep (mkCtx envC1w 0 0 0 ⟨"g"⟩ "")
        (stateAt envC1w 0 0 0 ⟨"g"⟩ "" 1)).fall_back = false ∧
      adaptive_geohash_nearby_search envC1w 0 0 0 0 [] ⟨"id"⟩ ⟨"lat"⟩ ⟨"lon"⟩ ⟨"g"⟩ "" =
        some (materialize envC1w 0 0 0 0 (updateSelectCols [] ⟨"lat"⟩ ⟨"lon"⟩) ⟨"lat"⟩ ⟨"lon"⟩
          (stateAt envC1w 0 0 0 ⟨"g"⟩ "" 1).previous_where_clause)) ∧
    (MAX_DB_HITS ≤ (stateAt envC1w 0 0 0 ⟨"g"⟩ "" 1).loop_count + 1 →
      (searchStep (mkCtx envC1w 0 0 0 ⟨"g"⟩ "")
        (stateAt envC1w 0 0 0 ⟨"g"⟩ "" 1)).fall_back = true ∧
      adaptive_geohash_nearby_search envC1w 0 0 0 0 [] ⟨"id"⟩ ⟨"lat"⟩ ⟨"lon"⟩ ⟨"g"⟩ "" =
        none) :=
C1_regression_reverts envC1w 0 0 0 0 [] ⟨"id"⟩ ⟨"lat"⟩ ⟨"lon"⟩ ⟨"g"⟩ "" 1
  (by decide) (by decide) (by decide)

/-! ## C5: the line-88 parameter guard -/

/-- C5 evaluated on the code: with a numeric latitude, a NON-numeric
longitude and integer cuts, the guard does not raise (the claim demands an
InvalidParameter failure), and in general the guard raises exactly when
latitude is non-numeric while all three other parameters are well-typed —
the botched negation of line 88. -/
theorem C5_validation_guard :
    raisesInvalidParam true false true true = false ∧
      (∀ a b c d : Bool, raisesInvalidParam a b c d = (!a && b && c && d)) := by
decide

/-! ## C6: the predicate builder -/

/-- C6 as stated is false: for the single range with both bounds present,
lower bound 0 and upper bound 5, the builder emits only the upper-bound
clause (Python truthiness treats the int 0 as absent), not the conjunction
the claim prescribes. -/
theorem C6_counterexample :
    whereClauseOfRanges [(some 0, some 5)] "g" = "((g<5))" ∧
      whereClauseOfRanges [(some 0, some 5)] "g" ≠ "((g>=0 AND g<5))" := by
exact ⟨rfl, by decide⟩

/-- A bound slot as the amended C6 reads it: absent when it is `None` or 0. -/
def normBound : Option ℕ → Option ℕ
| none => none
| some n => if n = 0 then none else some n

/-- The clause the amended C6 prescribes for one range, in terms of the
normalized bound slots. -/
def specSubClause (col : String) (r : Rng) : Option String :=
match normBound r.1, normBound r.2 with
| some l, some u =>
    some ("(" ++ col ++ ">=" ++ toString l ++ " AND " ++ col ++ "<" ++ toString u ++ ")")
| some l, none => some ("(" ++ col ++ ">=" ++ toString l ++ ")")
| none, some u => some ("(" ++ col ++ "<" ++ toString u ++ ")")
| none, none => none

theorem subClause_eq_spec (col : String) (r : Rng) : subClause col r = specSubClause col r := by
obtain ⟨l, u⟩ := r
cases l with
| none =>
    cases u with
    | none => rfl
    | some u =>
        by_cases hu : u = 0 <;>
          simp [subClause, specSubClause, normBound, truthy, hu]
| some l =>
    cases u with
    | none =>
        by_cases hl : l = 0 <;>
          simp [subClause, specSubClause, normBound, truthy, hl]
    | some u =>
        by_cases hl : l = 0 <;> by_cases hu : u = 0 <;>
          simp [subClause, specSubClause, normBound, truthy, hl, hu]

theorem paren_ne_empty (s : String) : "(" ++ s ++ ")" ≠ "" := by
intro h
have hlen := congrArg String.length h
rw [String.length_append, String.length_append] at hlen
have h1 : "(".length = 1 := rfl
have h2 : ")".length = 1 := rfl
have h3 : "".length = 0 := rfl
omega

/-- C6 (amended): per range the builder emits `column >= lower AND
column < upper` when both bounds are present with a nonzero value,
`column >= lower` when only the lower bound is present and nonzero,
`column < upper` when only the upper bound is present and nonzero, and
nothing otherwise (an absent-or-zero bound contributes as absent); it joins
the emitted clauses with " OR ", and it returns the empty-string marker
exactly when no clause is emitted. -/
theorem C6_predicate_builder (ranges : List Rng) (col : String) :
    whereClauseOfRanges ranges col =
      (if ranges.filterMap (specSubClause col) = [] then ""
       else "(" ++ String.intercalate " OR " (ranges.filterMap (specSubClause col)) ++ ")") ∧
      (whereClauseOfRanges ranges col = "" ↔ ranges.filterMap (specSubClause col) = []) := by
have hfm : buildSubClauses ranges col = ranges.filterMap (specSubClause col) :=
  List.filterMap_congr (fun r _ => subClause_eq_spec col r)
have heq : whereClauseOfRanges ranges col =
    (if ranges.filterMap (specSubClause col) = [] then ""
     else "(" ++ String.intercalate " OR " (ranges.filterMap (specSubClause col)) ++ ")") := by
  simp only [whereClauseOfRanges, hfm, List.length_eq_zero]
refine ⟨heq, ?_⟩
rw [heq]
by_cases hP : ranges.filterMap (specSubClause col) = []
· simp [hP]
· simp only [if_neg hP]
  constructor
  · intro h; exact absurd h (paren_ne_empty _)
  · intro h; exact absurd h hP

/-! ## C9: distance symmetry -/

/-- C9: the distance function is symmetric in its two coordinate pairs. -/
theorem C9_distance_symm (lat1 long1 lat2 long2 : ℝ) :
    distance lat1 long1 lat2 long2 = distance lat2 long2 lat1 long1 := by
have hsymm : haversine_term lat2 long2 lat1 long1 = haversine_term lat1 long1 lat2 long2 := by
  unfold haversine_term
  rw [show radians (lat2 - lat1) = -(radians (lat1 - lat2)) by unfold radians; ring,
    show radians (long2 - long1) = -(radians (long1 - long2)) by unfold radians; ring,
    neg_div, neg_div, Real.sin_neg, Real.sin_neg]
  ring
unfold distance
by_cases h : lat1 = lat2 ∧ long1 = long2
· rw [if_pos h, if_pos (And.intro h.1.symm h.2.symm)]
· rw [if_neg h, if_neg (fun h' => h (And.intro h'.1.symm h'.2.symm)), hsymm]

/-! ## C10: the select_cols frame effect -/

/-- C10: whenever the latitude column or the longitude column is absent from
the caller's `select_cols` at call time, the list the invocation works with
afterwards (lines 90-93 append to the caller's list in place, modelled by
explicit state passing) is strictly longer than the one passed in. -/
theorem C10_select_cols_grow (select_cols : List Column) (lat_col lon_col : Column)
    (h : lat_col ∉ select_cols ∨ lon_col ∉ select_cols) :
    select_cols.length < (updateSelectCols select_cols lat_col lon_col).length := by
unfold updateSelectCols
by_cases h1 : lat_col ∉ select_cols
· rw [if_pos h1]
  by_cases h2 : lon_col ∉ (select_cols ++ [lat_col])
  · rw [if_pos h2]; simp [List.length_append]
  · rw [if_neg h2]; simp [List.length_append]
· rw [if_neg h1]
  rw [if_pos (h.resolve_left h1)]
  simp [List.length_append]

theorem C10_select_cols_grow_witness :
    ((⟨"lat"⟩ : Column) ∉ ([] : List Column) ∨ (⟨"lon"⟩ : Column) ∉ ([] : List Column)) ∧
      ([] : List Column).length < (updateSelectCols [] ⟨"lat"⟩ ⟨"lon"⟩).length :=
⟨Or.inl (by decide), C10_select_cols_grow [] ⟨"lat"⟩ ⟨"lon"⟩ (Or.inl (by decide))⟩

/-! ## C7 and C8: the materialized result -/

/-- A non-fallback invocation returns exactly the materialized page for the
accepted predicate. -/
theorem adaptive_some_elim {Row : Type} (env : Env Row) (latitude longitude : ℝ)
    (lower_cut upper_cut : ℕ) (select_cols : List Column)
    (count_col lat_col lon_col geoint_col : Column) (custom_where_clause : String)
    (res : List Row)
    (h : adaptive_geohash_nearby_search env latitude longitude lower_cut upper_cut select_cols
      count_col lat_col lon_col geoint_col custom_where_clause = some res) :
    res = materialize env latitude longitude lower_cut upper_cut
      (updateSelectCols select_cols lat_col lon_col) lat_col lon_col
      (acceptedClause env latitude longitude upper_cut geoint_col custom_where_clause) := by
simp only [adaptive_geohash_nearby_search] at h
by_cases hf : (finalState env latitude longitude upper_cut geoint_col
    custom_where_clause).fall_back = false
· rw [if_pos hf] at h
  exact (Option.some.inj h).symm
· rw [if_neg hf] at h
  simp at h

/-- The page length of the materialized result, as a function of the number
of fetched rows. -/
theorem materialize_length {Row : Type} (env : Env Row) (latitude longitude : ℝ)
    (lower_cut upper_cut : ℕ) (select_cols : List Column) (lat_col lon_col : Column)
    (where_clause : String) :
    (materialize env latitude longitude lower_cut upper_cut select_cols lat_col lon_col
        where_clause).length =
      min (upper_cut - lower_cut) ((env.fetch select_cols where_clause).length - lower_cut) := by
simp only [materialize]
rw [List.length_take, List.length_drop, List.length_map, List.length_mergeSort,
  List.length_map]

/-- C7: in every non-fallback invocation, the returned sequence is the
half-open slice [lower_cut, upper_cut) of the fetched rows stable-sorted by
distance to the query point (the materializer), and consequently the
returned rows are pairwise in non-decreasing order of that distance. -/
theorem C7_sorted_by_distance {Row : Type} (env : Env Row) (latitude longitude : ℝ)
    (lower_cut upper_cut : ℕ) (select_cols : List Column)
    (count_col lat_col lon_col geoint_col : Column) (custom_where_clause : String)
    (res : List Row)
    (h : adaptive_geohash_nearby_search env latitude longitude lower_cut upper_cut select_cols
      count_col lat_col lon_col geoint_col custom_where_clause = some res) :
    res = materialize env latitude longitude lower_cut upper_cut
        (updateSelectCols select_cols lat_col lon_col) lat_col lon_col
        (acceptedClause env latitude longitude upper_cut geoint_col custom_where_clause) ∧
      res.Pairwise (fun r1 r2 =>
        distance latitude longitude (env.rowVal r1 lat_col) (env.rowVal r1 lon_col) ≤
          distance latitude longitude (env.rowVal r2 lat_col) (env.rowVal r2 lon_col)) := by
have hres := adaptive_some_elim env latitude longitude lower_cut upper_cut select_cols
  count_col lat_col lon_col geoint_col custom_where_clause res h
refine ⟨hres, ?_⟩
rw [hres]
simp only [materialize]
apply List.Pairwise.sublist ((List.take_sublist _ _).trans (List.drop_sublist _ _))
rw [List.pairwise_map]
have htrans : ∀ a b c : Row × ℝ, (decide (a.2 ≤ b.2)) = true → (decide (b.2 ≤ c.2)) = true →
    (decide (a.2 ≤ c.2)) = true := by
  intro a b c hab hbc
  exact decide_eq_true (le_trans (of_decide_eq_true hab) (of_decide_eq_true hbc))
have htotal : ∀ a b : Row × ℝ, ((decide (a.2 ≤ b.2)) || (decide (b.2 ≤ a.2))) = true := by
  intro a b
  rcases le_total a.2 b.2 with hle | hle
  · rw [decide_eq_true hle]; rfl
  · rw [decide_eq_true hle, Bool.or_true]
have hsort := @List.sorted_mergeSort (Row × ℝ) (fun a b => decide (a.2 ≤ b.2)) htrans htotal
  ((env.fetch (updateSelectCols select_cols lat_col lon_col)
      (acceptedClause env latitude longitude upper_cut geoint_col custom_where_clause)).map
    (fun row => (row, distance latitude longitude (env.rowVal row lat_col)
      (env.rowVal row lon_col))))
refine List.Pairwise.imp_of_mem ?_ hsort
intro a b hma hmb hab
obtain ⟨ra, _, heqa⟩ := List.mem_map.mp (List.mem_mergeSort.mp hma)
obtain ⟨rb, _, heqb⟩ := List.mem_map.mp (List.mem_mergeSort.mp hmb)
rw [← heqa, ← heqb]
rw [← heqa, ← heqb] at hab
exact of_decide_eq_true hab

/-- Witness environment for C7: the backend converges on the first count
query and fetches no rows. -/
def envC7 : Env Unit :=
{ expand_uint64 := fun _ _ => [(some 1, some 2)],
  encode_uint64 := fun _ _ => 0,
  count := fun _ _ => 100,
  fetch := fun _ _ => [],
  rowVal := fun _ _ => 0 }

theorem C7_sorted_by_distance_witness :
    adaptive_geohash_nearby_search envC7 0 0 0 0 [] ⟨"id"⟩ ⟨"lat"⟩ ⟨"lon"⟩ ⟨"g"⟩ "" =
        some [] ∧
      (([] : List Unit) = materialize envC7 0 0 0 0 (updateSelectCols [] ⟨"lat"⟩ ⟨"lon"⟩)
          ⟨"lat"⟩ ⟨"lon"⟩ (acceptedClause envC7 0 0 0 ⟨"g"⟩ "") ∧
        ([] : List Unit).Pairwise (fun r1 r2 =>
          distance 0 0 (envC7.rowVal r1 ⟨"lat"⟩) (envC7.rowVal r1 ⟨"lon"⟩) ≤
            distance 0 0 (envC7.rowVal r2 ⟨"lat"⟩) (envC7.rowVal r2 ⟨"lon"⟩))) :=
⟨rfl, C7_sorted_by_distance envC7 0 0 0 0 [] ⟨"id"⟩ ⟨"lat"⟩ ⟨"lon"⟩ ⟨"g"⟩ "" [] rfl⟩

/-- Counterexample environment for C8: the first count query reports 5 rows,
the second reports 3 (a regression), so the invocation converges on the
first predicate, which matches 5 rows. -/
def envC8 : Env ℕ :=
{ expand_uint64 := fun _ _ => [(some 1, some 2)],
  encode_uint64 := fun _ _ => 0,
  count := fun i _ => if i = 0 then 5 else 3,
  fetch := fun _ _ => [10, 11, 12, 13, 14],
  rowVal := fun _ _ => 0 }

/-- C8 as stated is false: with lower_cut 5 and upper_cut 10 the matching
set of the accepted predicate has 5 = upper_cut - lower_cut rows, yet the
returned page is empty — its length 0 differs from upper_cut - lower_cut. -/
theorem C8_counterexample :
    (adaptive_geohash_nearby_search envC8 0 0 5 10 [] ⟨"id"⟩ ⟨"lat"⟩ ⟨"lon"⟩ ⟨"g"⟩ "").map
        List.length = some 0 ∧
      10 - 5 ≤ (envC8.fetch (updateSelectCols [] ⟨"lat"⟩ ⟨"lon"⟩)
        (acceptedClause envC8 0 0 10 ⟨"g"⟩ "")).length ∧
      (0 : ℕ) ≠ 10 - 5 := by
have hf : (finalState envC8 0 0 10 ⟨"g"⟩ "").fall_back = false := by decide
have h : adaptive_geohash_nearby_search envC8 0 0 5 10 [] ⟨"id"⟩ ⟨"lat"⟩ ⟨"lon"⟩ ⟨"g"⟩ "" =
    some (materialize envC8 0 0 5 10 (updateSelectCols [] ⟨"lat"⟩ ⟨"lon"⟩) ⟨"lat"⟩ ⟨"lon"⟩
      (acceptedClause envC8 0 0 10 ⟨"g"⟩ "")) := by
  simp only [adaptive_geohash_nearby_search]
  rw [if_pos hf]
  rfl
refine ⟨?_, by decide, by decide⟩
rw [h, Option.map_some', materialize_length]
have hlen : (envC8.fetch (updateSelectCols [] ⟨"lat"⟩ ⟨"lon"⟩)
    (acceptedClause envC8 0 0 10 ⟨"g"⟩ "")).length = 5 := rfl
rw [hlen]
decide

/-- C8 (amended): in every non-fallback invocation the length of the
returned sequence is at most upper_cut - lower_cut, and it equals
upper_cut - lower_cut whenever the set of rows matching the accepted
predicate has at least upper_cut elements (the original bound of
upper_cut - lower_cut elements is not sufficient once lower_cut > 0). -/
theorem C8_result_length {Row : Type} (env : Env Row) (latitude longitude : ℝ)
    (lower_cut upper_cut : ℕ) (select_cols : List Column)
    (count_col lat_col lon_col geoint_col : Column) (custom_where_clause : String)
    (res : List Row)
    (h : adaptive_geohash_nearby_search env latitude longitude lower_cut upper_cut select_cols
      count_col lat_col lon_col geoint_col custom_where_clause = some res) :
    res.length ≤ upper_cut - lower_cut ∧
      (upper_cut ≤ (env.fetch (updateSelectCols select_cols lat_col lon_col)
          (acceptedClause env latitude longitude upper_cut geoint_col
            custom_where_clause)).length →
        res.length = upper_cut - lower_cut) := by
have hres := adaptive_some_elim env latitude longitude lower_cut upper_cut select_cols
  count_col lat_col lon_col geoint_col custom_where_clause res h
rw [hres, materialize_length]
exact ⟨min_le_left _ _, fun hN => min_eq_left (Nat.sub_le_sub_right hN _)⟩

/-- Witness environment for the amended C8. -/
def envC8w : Env Unit :=
{ expand_uint64 := fun _ _ => [(some 1, some 2)],
  encode_uint64 := fun _ _ => 0,
  count := fun _ _ => 100,
  fetch := fun _ _ => [],
  rowVal := fun _ _ => 0 }

theorem C8_result_length_witness :
    ([] : List Unit).length ≤ 0 - 0 ∧
      (0 ≤ (envC8w.fetch (updateSelectCols [] ⟨"lat"⟩ ⟨"lon"⟩)
          (acceptedClause envC8w 0 0 0 ⟨"g"⟩ "")).length →
        ([] : List Unit).length = 0 - 0) :=
C8_result_length envC8w 0 0 0 0 [] ⟨"id"⟩ ⟨"lat"⟩ ⟨"lon"⟩ ⟨"g"⟩ "" [] rfl

end AdaptiveGeohash
